import Mathlib

/-!
# The carousel of `script.js`

A shallow embedding of `setupCarousel` (`src/script.js`, lines 379-527): the
closure variables of the function, the parts of the page it writes to, and
each of its inner functions as a function on that state.

A JavaScript handler that raises a `TypeError` stops where it raises and keeps
every assignment made before; `Outcome` records both the state reached and
whether the handler ran to its end.
-/

namespace Carousel

/-! ## The page as the carousel sees it -/

/-- Inline `style.display` of an element; `unset` means the script has not written it. -/
inductive Display where
  | unset
  | none
  | flex
  deriving DecidableEq, Repr

/-- Inline `style.flexWrap` of the track. -/
inductive FlexWrap where
  | unset
  | wrap
  | nowrap
  deriving DecidableEq, Repr

/-- Inline `style.justifyContent` of the track. -/
inductive JustifyContent where
  | unset
  | center
  | flexStart
  deriving DecidableEq, Repr

/-- Inline `style.transform` of the track: not yet written, the literal
`translateX(0)` of the show-all branch, or `translateX(<x>px)` of the paged branch. -/
inductive Transform where
  | unset
  | zero
  | px (x : Int)
  deriving DecidableEq, Repr

/-- Horizontal displacement of the track, in pixels, that a transform stands for. -/
def Transform.offset : Transform → Int
  | .unset => 0
  | .zero => 0
  | .px x => x

/-- The element `#carouselDots`: its inline display and, for each child button
`.carousel-dot` in order, whether it carries the class `active`. -/
structure DotsContainer where
  display : Display
  dots : List Bool
  deriving DecidableEq, Repr

/-- Layout metrics the browser reports when the script reads them:
`window.innerWidth` and `cards[0].offsetWidth`. -/
structure Viewport where
  innerWidth : Nat
  cardOffsetWidth : Nat
  deriving DecidableEq, Repr

/-- Everything `setupCarousel` closes over or writes to.

* `totalCards` is `cards.length` of the static node list taken at line 388;
* `setupInnerWidth` is `window.innerWidth` as it was when line 390 ran;
* `viewport` is what the browser reports now;
* `currentIndex`, `isViewAll` are the two `let` variables of lines 391-392;
* the remaining fields are the inline styles and contents the script writes;
  `dotsContainer` and `viewAllBtn` are `none` when `getElementById` found nothing
  (the guard of line 386 covers only the track and the two arrow buttons). -/
structure State where
  totalCards : Nat
  setupInnerWidth : Nat
  viewport : Viewport
  currentIndex : Int
  isViewAll : Bool
  transform : Transform
  flexWrap : FlexWrap
  justifyContent : JustifyContent
  prevDisplay : Display
  nextDisplay : Display
  dotsContainer : Option DotsContainer
  viewAllBtn : Option String
  deriving DecidableEq, Repr

/-- Result of running one handler: it either ran to its end or raised a
`TypeError` part-way; in both cases `s` is the state it left behind. -/
inductive Outcome where
  | ok (s : State)
  | threw (s : State)
  deriving DecidableEq, Repr

/-- The state a handler left behind. -/
def Outcome.state : Outcome → State
  | .ok s => s
  | .threw s => s

/-- Whether the handler ran to its end. -/
def Outcome.completed : Outcome → Bool
  | .ok _ => true
  | .threw _ => false

/-- Statement sequencing: the second statement runs only if the first did not raise. -/
def Outcome.andThen (o : Outcome) (f : State → Outcome) : Outcome :=
  match o with
  | .ok s => f s
  | .threw s => .threw s

/-! ## The closure constants -/

/-- Line 390: `window.innerWidth <= 768 ? 1 : 3`. -/
def cardsPerViewAt (innerWidth : Nat) : Nat :=
  if innerWidth ≤ 768 then 1 else 3

/-- The `const cardsPerView`: evaluated once, from the width the window had at setup. -/
def cardsPerView (s : State) : Nat :=
  cardsPerViewAt s.setupInnerWidth

/-- The expression `Math.ceil(totalCards / cardsPerView)` of lines 398, 432, 448, 460.
Both operands are small non-negative integers and the divisor is 1 or 3, so the
rounded-up quotient is the integer ceiling. -/
def totalDots (s : State) : Nat :=
  (s.totalCards + cardsPerView s - 1) / cardsPerView s

/-- The expression `Math.ceil(totalCards / cardsPerView) - 1`; it is `-1` for no cards. -/
def maxIndex (s : State) : Int :=
  (totalDots s : Int) - 1

/-- The expression `cards[0].offsetWidth`: `none` when `cards[0]` is `undefined`,
which is when the node list is empty. -/
def firstCardOffsetWidth (s : State) : Option Nat :=
  if s.totalCards = 0 then none else some s.viewport.cardOffsetWidth

/-! ## The inner functions -/

/-- Lines 395-407. Returns at once without a dots container; otherwise empties it
and appends `totalDots` buttons, the first of which gets the class `active`. -/
def createDots (s : State) : State :=
  match s.dotsContainer with
  | Option.none => s
  | some d =>
    let dots := (List.range (totalDots s)).map (fun i => decide (i = 0))
    { s with dotsContainer := some { d with dots := dots } }

/-- The statement `dotsContainer.style.display = v`; raises on a missing container. -/
def setDotsDisplay (v : Display) (s : State) : Outcome :=
  match s.dotsContainer with
  | Option.none => .threw s
  | some d => .ok { s with dotsContainer := some { d with display := v } }

/-- Lines 410-428. -/
def updateCarousel (s : State) : Outcome :=
  if s.isViewAll then
    setDotsDisplay Display.none
      { s with
        transform := .zero
        flexWrap := .wrap
        justifyContent := .center
        prevDisplay := Display.none
        nextDisplay := Display.none }
  else
    match firstCardOffsetWidth s with
    | Option.none => .threw s
    | some offsetWidth =>
      let cardWidth : Int := (offsetWidth : Int) + 32
      let translateX : Int := -s.currentIndex * cardWidth * (cardsPerView s : Int)
      setDotsDisplay Display.flex
        { s with
          transform := .px translateX
          flexWrap := .nowrap
          justifyContent := .flexStart
          prevDisplay := Display.flex
          nextDisplay := Display.flex }

/-- Lines 439-444: every dot gets `active` exactly when its position is `currentIndex`. -/
def updateDots (s : State) : Outcome :=
  match s.dotsContainer with
  | Option.none => .threw s
  | some d =>
    let dots := (List.range d.dots.length).map (fun i => decide ((i : Int) = s.currentIndex))
    .ok { s with dotsContainer := some { d with dots := dots } }

/-- Lines 431-436. -/
def goToSlide (index : Int) (s : State) : Outcome :=
  let maxIndex := maxIndex s
  (updateCarousel { s with currentIndex := max 0 (min index maxIndex) }).andThen updateDots

/-- Lines 447-456. -/
def nextSlide (s : State) : Outcome :=
  let maxIndex := maxIndex s
  let s1 : State :=
    if s.currentIndex < maxIndex then { s with currentIndex := s.currentIndex + 1 }
    else { s with currentIndex := 0 }
  (updateCarousel s1).andThen updateDots

/-- Lines 459-468. -/
def prevSlide (s : State) : Outcome :=
  let maxIndex := maxIndex s
  let s1 : State :=
    if s.currentIndex > 0 then { s with currentIndex := s.currentIndex - 1 }
    else { s with currentIndex := maxIndex }
  (updateCarousel s1).andThen updateDots

/-- Lines 471-475. -/
def toggleViewAll (s : State) : Outcome :=
  let s1 : State := { s with isViewAll := !s.isViewAll }
  match s1.viewAllBtn with
  | Option.none => .threw s1
  | some _ =>
    updateCarousel { s1 with viewAllBtn := some (if s1.isViewAll then "Show Less" else "View All") }

/-- Body of the resize listener, lines 523-526. -/
def onResize (s : State) : Outcome :=
  updateCarousel (createDots s)

/-- A resize event: the browser reports new metrics, then the listener runs. -/
def resize (v : Viewport) (s : State) : Outcome :=
  onResize { s with viewport := v }

/-! ## Construction -/

/-- What `setupCarousel` finds in the document when it starts. -/
structure Page where
  hasTrack : Bool
  hasPrevBtn : Bool
  hasNextBtn : Bool
  dotsContainer : Option DotsContainer
  viewAllBtn : Option String
  totalCards : Nat
  viewport : Viewport
  deriving DecidableEq, Repr

/-- The closure as lines 388-392 leave it, before anything has been rendered. -/
def initialState (p : Page) : State :=
  { totalCards := p.totalCards
    setupInnerWidth := p.viewport.innerWidth
    viewport := p.viewport
    currentIndex := 0
    isViewAll := false
    transform := .unset
    flexWrap := .unset
    justifyContent := .unset
    prevDisplay := .unset
    nextDisplay := .unset
    dotsContainer := p.dotsContainer
    viewAllBtn := p.viewAllBtn }

/-- Lines 379-527 up to the end of initialisation. `none`: the guard of line 386
returned and there is no carousel. Line 480 raises when there is no view-all
button; otherwise lines 519-520 build the dots and render. -/
def setupCarousel (p : Page) : Option Outcome :=
  if !p.hasTrack || !p.hasPrevBtn || !p.hasNextBtn then Option.none
  else
    match p.viewAllBtn with
    | Option.none => some (.threw (initialState p))
    | some _ => some (updateCarousel (createDots (initialState p)))

/-! ## Sequences of arrow presses -/

/-- The two arrow commands. -/
inductive Nav where
  | next
  | prev
  deriving DecidableEq, Repr

/-- One arrow press; the state afterwards is the one the handler left behind. -/
def step (s : State) : Nav → State
  | .next => (nextSlide s).state
  | .prev => (prevSlide s).state

/-- A finite sequence of arrow presses, first to last. -/
def run (s : State) (cmds : List Nav) : State :=
  cmds.foldl step s

/-- The index lies in `[0, pageCount - 1]`. -/
def InRange (s : State) : Prop :=
  0 ≤ s.currentIndex ∧ s.currentIndex ≤ (totalDots s : Int) - 1

instance (s : State) : Decidable (InRange s) := by
  unfold InRange; infer_instance

/-- A page with everything in place: `n` cards, the given metrics, an empty dot strip. -/
def fullPage (n : Nat) (v : Viewport) : Page :=
  { hasTrack := true
    hasPrevBtn := true
    hasNextBtn := true
    dotsContainer := some { display := .unset, dots := [] }
    viewAllBtn := some "View All"
    totalCards := n
    viewport := v }

/-- A narrow window (375 px) with 300 px cards. -/
def narrow : Viewport := { innerWidth := 375, cardOffsetWidth := 300 }

/-- A wide window (1280 px) with 368 px cards. -/
def wide : Viewport := { innerWidth := 1280, cardOffsetWidth := 368 }

/-- The state after setting up `n` cards under metrics `v` on a full page. -/
def constructed (n : Nat) (v : Viewport) : State :=
  match setupCarousel (fullPage n v) with
  | some o => o.state
  | Option.none => initialState (fullPage n v)

/-! ## Swipe gestures -/

/-- The carousel together with the two closure variables of the swipe handlers
(lines 489-490). A coordinate is a `clientX` value, a number of pixels that need
not be whole; it is taken as a rational number and the difference of line 507 is
computed exactly. -/
structure Touch where
  carousel : State
  startX : ℚ
  isDragging : Bool
  deriving DecidableEq, Repr

/-- Lines 492-495: the `touchstart` listener, given `e.touches[0].clientX`. -/
def touchstart (clientX : ℚ) (t : Touch) : Touch :=
  { t with startX := clientX, isDragging := true }

/-- Lines 502-516: what the `touchend` listener does to the carousel, given
`e.changedTouches[0].clientX`. -/
def touchendOutcome (clientX : ℚ) (t : Touch) : Outcome :=
  if !t.isDragging then .ok t.carousel
  else
    let endX := clientX
    let diff := t.startX - endX
    if |diff| > 50 then
      if diff > 0 then nextSlide t.carousel else prevSlide t.carousel
    else .ok t.carousel

/-- Lines 502-516: the `touchend` listener as a whole; the drag is over afterwards. -/
def touchend (clientX : ℚ) (t : Touch) : Touch :=
  { carousel := (touchendOutcome clientX t).state
    startX := t.startX
    isDragging := false }

end Carousel

/-! # The theme toggle of `script.js` (lines 135-165) -/

namespace ThemeToggle

/-- What the click listener reads and writes: the `data-theme` attribute of the
body (`none` when `getAttribute` returns `null`) and the entry `theme` of the
local storage (`none` when there is no such entry). -/
structure ThemeState where
  dataTheme : Option String
  stored : Option String
  deriving DecidableEq, Repr

/-- Lines 152-153: `currentTheme === 'light' ? 'dark' : 'light'`. -/
def newTheme (currentTheme : Option String) : String :=
  if currentTheme = some "light" then "dark" else "light"

/-- Lines 149-163, the click listener: attribute and storage both receive `newTheme`. -/
def click (s : ThemeState) : ThemeState :=
  let newTheme := newTheme s.dataTheme
  { dataTheme := some newTheme, stored := some newTheme }

end ThemeToggle

/-! # The contact form of `script.js` (lines 192-286) -/

namespace ContactForm

/-- What the pattern of line 284 can tell about a character: whether it is white
space (`\s`), the at sign, the full stop, or anything else. -/
inductive CharClass where
  | space
  | atSign
  | dot
  | other
  deriving DecidableEq, Repr

/-- The class `\s` of a JavaScript regular expression: tab, line feed, vertical tab,
form feed, carriage return, space, no-break space, the byte order mark, the line
and paragraph separators and the Unicode space separators. -/
def isWhiteSpace (c : Char) : Bool :=
  c.toNat ∈ [0x09, 0x0A, 0x0B, 0x0C, 0x0D, 0x20, 0xA0, 0x1680, 0x2028, 0x2029, 0x202F, 0x205F,
    0x3000, 0xFEFF] || (0x2000 ≤ c.toNat && c.toNat ≤ 0x200A)

/-- The class of a character. -/
def classify (c : Char) : CharClass :=
  if c = '@' then .atSign
  else if c = '.' then .dot
  else if isWhiteSpace c then .space
  else .other

/-- The character class `[^\s@]`: a full stop or anything else that is neither
white space nor the at sign. -/
def notSpaceAt : RegularExpression CharClass := RegularExpression.char CharClass.dot + RegularExpression.char CharClass.other

/-- The quantifier `+`. -/
def oneOrMore (r : RegularExpression CharClass) : RegularExpression CharClass := r * r.star

/-- Line 284: the pattern `^[^\s@]+@[^\s@]+\.[^\s@]+$`; the anchors make it a match
of the whole string. -/
def emailRegex : RegularExpression CharClass :=
  oneOrMore notSpaceAt * RegularExpression.char CharClass.atSign * oneOrMore notSpaceAt
    * RegularExpression.char CharClass.dot * oneOrMore notSpaceAt

/-- Lines 283-286: `emailRegex.test(email)`. A character outside the basic plane is
two code units for JavaScript, neither of them white space, at sign or full
stop, so matching by characters and by code units agree. -/
def isValidEmail (email : String) : Bool :=
  emailRegex.rmatch (email.toList.map classify)

/-- The method `String.prototype.includes`. -/
def includes (s searchString : String) : Bool :=
  decide (searchString.toList <:+: s.toList)

/-- Line 9. -/
def FORMSPREE_ENDPOINT : String := "https://formspree.io/f/mgvljnzv"


/-- The shape of an address in the words of the specification: no white space, exactly
one at sign, a non-empty part before it, and after it a part holding a full stop
that is neither its first nor its last character. -/
def EmailShape (s : List Char) : Prop :=
  (∀ c ∈ s, isWhiteSpace c = false) ∧
  s.count '@' = 1 ∧
  ∃ l d, s = l ++ '@' :: d ∧ l ≠ [] ∧ ∃ x y, d = x ++ '.' :: y ∧ x ≠ [] ∧ y ≠ []

/-- A class that `[^\s@]` accepts. -/
def Plain (k : CharClass) : Prop := k = CharClass.dot ∨ k = CharClass.other


/-- The values `formData.get` returns for the fields the submit listener reads
(lines 201-208); `none` is `null`, a form without a control of that name. -/
structure FormFields where
  name : Option String
  email : Option String
  message : Option String
  projectType : Option String
  budget : Option String
  company : Option String
  phone : Option String
  newsletter : Option String
  deriving DecidableEq, Repr

/-- JavaScript truthiness of such a value: `null` and the empty string are falsy. -/
def truthy : Option String → Bool
  | none => false
  | some v => decide (v ≠ "")

/-- How the submit listener ends: with `showNotification(dict[key], 'error')` and
`return`, with a `TypeError` on the missing submit button, or with the call of
`fetch` that posts the form to the endpoint. -/
inductive SubmitResult where
  | notified (key : String)
  | raised
  | posted
  deriving DecidableEq, Repr

/-- Lines 196-259, up to and including the call of `fetch`. `hasSubmitButton` tells
whether `contactForm.querySelector('.button.primary')` finds an element. -/
def onSubmit (hasSubmitButton : Bool) (f : FormFields) : SubmitResult :=
  if !truthy f.name || !truthy f.email || !truthy f.message || !truthy f.projectType
      || !truthy f.budget then
    .notified "notification.error.fields"
  else if !isValidEmail (f.email.getD "null") then
    .notified "notification.error.email"
  else if FORMSPREE_ENDPOINT = "" || includes FORMSPREE_ENDPOINT "YOUR_FORM_ID" then
    .notified "notification.error.form"
  else if !hasSubmitButton then
    .raised
  else
    .posted

/-- A filled-in form. -/
def sampleForm : FormFields :=
  { name := some "Ada", email := some "ada@example.org", message := some "Hello",
    projectType := some "landing", budget := some "budget1", company := none,
    phone := some "", newsletter := some "on" }

end ContactForm

/-! # The translations of `script.js` (lines 593-868) -/

namespace I18n

/-- What an element can hold after `applyTranslations`: a string taken from the page
or from a dictionary, or the string conversion of a built-in object that was found
under the given property names, starting from `Object.prototype`. -/
inductive Content where
  | html (s : String)
  | builtin (path : List String)
  deriving DecidableEq, Repr

/-- The English dictionary, `translations.en`, lines 600-712. -/
def en : List (String × String) :=
  [("nav.home", "Home"),
   ("nav.projects", "Projects"),
   ("nav.about", "About"),
   ("nav.services", "Services"),
   ("nav.contact", "Contact"),
   ("hero.title", "Hello! I'm <span class=\"highlight-name\">Bilal Khasakhanov</span>"),
   ("hero.subtitle", "Frontend / Backend / FullStack developer. Creating fast and user-friendly web applications."),
   ("hero.ctaPrimary", "My Projects"),
   ("hero.ctaSecondary", "Get In Touch"),
   ("projects.title", "Projects"),
   ("projects.viewAll", "View All"),
   ("projects.teplotec.title", "Teplotec"),
   ("projects.teplotec.desc", "A modern services website for handyman and technical solutions in Belgium. Focus on clear service structure, quick booking, and trust-building UI."),
   ("projects.saas.desc", "Interactive analytics dashboard with authentication, charts, and API integrations. Optimized for performance and accessibility."),
   ("projects.content.desc", "Blazing-fast content site built with Astro and external APIs. Delivers excellent Lighthouse scores and SEO-friendly markup."),
   ("projects.ecom.desc", "Full-stack e-commerce solution with payment integration, inventory management, and admin dashboard. Built for scalability and user experience."),
   ("projects.task.desc", "Cross-platform mobile app for task management with real-time sync, team collaboration features, and intuitive design patterns."),
   ("projects.portfolio.desc", "Minimalist portfolio website showcasing creative work with smooth animations, dark mode, and optimized performance across devices."),
   ("projects.viewSite", "View site"),
   ("services.title", "Services"),
   ("services.subtitle", "Choose the perfect package for your project"),
   ("services.landing.title", "Landing Page"),
   ("services.landing.desc", "Single page website with contact form, mobile responsive design."),
   ("services.landing.feature1", "Mobile responsive"),
   ("services.landing.feature2", "Contact form"),
   ("services.landing.feature3", "SEO optimized"),
   ("services.landing.price", "€599"),
   ("services.business.title", "Business Website"),
   ("services.business.desc", "Multi-page website with CMS, blog, and admin panel."),
   ("services.business.feature1", "Up to 10 pages"),
   ("services.business.feature2", "WordPress CMS"),
   ("services.business.feature3", "Blog system"),
   ("services.business.feature4", "Admin panel"),
   ("services.business.price", "€1299"),
   ("services.ecommerce.title", "E-commerce Store"),
   ("services.ecommerce.desc", "Full online store with payment integration and inventory management."),
   ("services.ecommerce.feature1", "Payment integration"),
   ("services.ecommerce.feature2", "Inventory management"),
   ("services.ecommerce.feature3", "Order tracking"),
   ("services.ecommerce.feature4", "Admin dashboard"),
   ("services.ecommerce.price", "€2499"),
   ("services.popular", "Most Popular"),
   ("process.title", "How I Work"),
   ("process.subtitle", "Simple 4-step process from idea to launch"),
   ("process.step1.title", "Discovery"),
   ("process.step1.desc", "We discuss your goals, target audience, and requirements to create the perfect solution."),
   ("process.step2.title", "Design"),
   ("process.step2.desc", "I create wireframes and mockups to visualize your project before development starts."),
   ("process.step3.title", "Development"),
   ("process.step3.desc", "Clean, efficient code development with regular updates and feedback sessions."),
   ("process.step4.title", "Launch"),
   ("process.step4.desc", "Deployment, testing, and handover with documentation and ongoing support."),
   ("pricing.title", "Pricing"),
   ("pricing.subtitle", "Transparent pricing with no hidden fees"),
   ("pricing.hourly.title", "Hourly Rate"),
   ("pricing.hourly.price", "€65<span>/hour</span>"),
   ("pricing.hourly.feature1", "Perfect for small tasks"),
   ("pricing.hourly.feature2", "Bug fixes & updates"),
   ("pricing.hourly.feature3", "Consultations"),
   ("pricing.hourly.feature4", "Minimum 2 hours"),
   ("pricing.project.title", "Project Based"),
   ("pricing.project.price", "€599<span>-€2499</span>"),
   ("pricing.project.feature1", "Fixed price packages"),
   ("pricing.project.feature2", "No surprise costs"),
   ("pricing.project.feature3", "3 months support"),
   ("pricing.project.feature4", "Source code included"),
   ("pricing.maintenance.title", "Maintenance"),
   ("pricing.maintenance.price", "€199<span>/month</span>"),
   ("pricing.maintenance.feature1", "Regular updates"),
   ("pricing.maintenance.feature2", "Security monitoring"),
   ("pricing.maintenance.feature3", "Backup & restore"),
   ("pricing.maintenance.feature4", "Priority support"),
   ("pricing.contact", "Get Quote"),
   ("pricing.recommended", "Recommended"),
   ("nav.process", "Process"),
   ("nav.pricing", "Pricing"),
   ("contact.title", "Contact"),
   ("contact.email", "✉️ bilal.khasakhanov@gmail.com"),
   ("contact.phone", "📞 +32 490 43 72 44"),
   ("contact.location", "📍 Oudenaarde, Belgium"),
   ("contact.form.name", "Your Name"),
   ("contact.form.email", "Email"),
   ("contact.form.message", "Tell me about your project..."),
   ("contact.form.send", "Send Message"),
   ("contact.form.projectType", "Project Type"),
   ("contact.form.selectProject", "Select Project Type"),
   ("contact.form.landing", "Landing Page (€599)"),
   ("contact.form.business", "Business Website (€1299)"),
   ("contact.form.ecommerce", "E-commerce Store (€2499)"),
   ("contact.form.custom", "Custom Project"),
   ("contact.form.maintenance", "Maintenance (€199/month)"),
   ("contact.form.consultation", "Consultation (€65/hour)"),
   ("contact.form.budget", "Budget Range"),
   ("contact.form.selectBudget", "Select Budget Range"),
   ("contact.form.budget1", "€500 - €1000"),
   ("contact.form.budget2", "€1000 - €2000"),
   ("contact.form.budget3", "€2000 - €3000"),
   ("contact.form.budget4", "€3000+"),
   ("contact.form.budget5", "Let's discuss"),
   ("contact.form.company", "Company (Optional)"),
   ("contact.form.phone", "Phone (Optional)"),
   ("contact.form.newsletter", "Subscribe to my newsletter for web development tips"),
   ("about.title", "About Me"),
   ("about.lead", "I'm Bilal Khasakhanov, a 23‑year‑old Full‑Stack web developer crafting end‑to‑end digital products — from design to deployment."),
   ("about.desc", "I design clean, user‑friendly interfaces and build reliable back‑end services with production‑ready hosting and infrastructure. My focus is performance, accessibility, and maintainable code that scales. I enjoy turning ideas into polished, real‑world solutions."),
   ("about.badge", "Available for work"),
   ("about.stats1", "Years experience"),
   ("about.stats2", "Projects"),
   ("about.stats3", "Happy clients"),
   ("about.cta1", "See my work"),
   ("about.cta2", "Hire me")]

/-- The Dutch dictionary, `translations.nl`, lines 713-832. -/
def nl : List (String × String) :=
  [("nav.home", "Home"),
   ("nav.projects", "Projecten"),
   ("nav.about", "Over"),
   ("nav.services", "Services"),
   ("nav.contact", "Contact"),
   ("hero.title", "Hallo! Ik ben <span class=\"highlight-name\">Bilal Khasakhanov</span>"),
   ("hero.subtitle", "Full‑Stack ontwikkelaar: front‑end, back‑end en hosting. Snelle en gebruiksvriendelijke webapps."),
   ("hero.ctaPrimary", "Mijn Projecten"),
   ("hero.ctaSecondary", "Contact opnemen"),
   ("projects.title", "Projecten"),
   ("projects.viewAll", "Alles bekijken"),
   ("projects.teplotec.title", "Teplotec"),
   ("projects.teplotec.desc", "Een moderne dienstensite voor handyman en technische oplossingen in België. Focus op duidelijke dienstenstructuur, snelle boeking en vertrouwenwekkende UI."),
   ("projects.saas.desc", "Interactief analytics-dashboard met login, grafieken en API-integraties. Geoptimaliseerd voor prestaties en toegankelijkheid."),
   ("projects.content.desc", "Razendsnelle content-site met Astro en externe API's. Uitstekende Lighthouse-scores en SEO-vriendelijke markup."),
   ("projects.ecom.desc", "Full-stack e-commerce oplossing met betalingsintegratie, voorraadbeheer en admin-dashboard. Gebouwd voor schaalbaarheid en gebruikservaring."),
   ("projects.task.desc", "Cross-platform takenapp voor taakbeheer met realtime synchronisatie, team samenwerking en intuïtief ontwerp."),
   ("projects.portfolio.desc", "Minimalistische portfolio website met vloeiende animaties, dark mode en optimale prestaties op alle apparaten."),
   ("projects.viewSite", "Bekijk site"),
   ("services.title", "Diensten"),
   ("services.subtitle", "Kies het perfecte pakket voor jouw project"),
   ("services.landing.title", "Landingspagina"),
   ("services.landing.desc", "Eénpagina website met contactformulier en mobiele responsive design."),
   ("services.landing.feature1", "Mobiel responsive"),
   ("services.landing.feature2", "Contactformulier"),
   ("services.landing.feature3", "SEO geoptimaliseerd"),
   ("services.landing.price", "€599"),
   ("services.business.title", "Bedrijfswebsite"),
   ("services.business.desc", "Meerpagina website met CMS, blog en admin panel."),
   ("services.business.feature1", "Tot 10 pagina's"),
   ("services.business.feature2", "WordPress CMS"),
   ("services.business.feature3", "Blog systeem"),
   ("services.business.feature4", "Admin panel"),
   ("services.business.price", "€1299"),
   ("services.ecommerce.title", "E-commerce Winkel"),
   ("services.ecommerce.desc", "Volledige online winkel met betalingsintegratie en voorraadbeheer."),
   ("services.ecommerce.feature1", "Betalingsintegratie"),
   ("services.ecommerce.feature2", "Voorraadbeheer"),
   ("services.ecommerce.feature3", "Order tracking"),
   ("services.ecommerce.feature4", "Admin dashboard"),
   ("services.ecommerce.price", "€2499"),
   ("services.popular", "Meest Populair"),
   ("process.title", "Hoe Ik Werk"),
   ("process.subtitle", "Eenvoudig 4-stappen proces van idee tot lancering"),
   ("process.step1.title", "Ontdekking"),
   ("process.step1.desc", "We bespreken jouw doelen, doelgroep en vereisten om de perfecte oplossing te creëren."),
   ("process.step2.title", "Ontwerp"),
   ("process.step2.desc", "Ik maak wireframes en mockups om jouw project te visualiseren voordat de ontwikkeling begint."),
   ("process.step3.title", "Ontwikkeling"),
   ("process.step3.desc", "Schone, efficiënte code ontwikkeling met regelmatige updates en feedback sessies."),
   ("process.step4.title", "Lancering"),
   ("process.step4.desc", "Deployment, testing en overdracht met documentatie en doorlopende ondersteuning."),
   ("pricing.title", "Prijzen"),
   ("pricing.subtitle", "Transparante prijzen zonder verborgen kosten"),
   ("pricing.hourly.title", "Uurtarief"),
   ("pricing.hourly.price", "€35<span>/uur</span>"),
   ("pricing.hourly.feature1", "Perfect voor kleine taken"),
   ("pricing.hourly.feature2", "Bug fixes & updates"),
   ("pricing.hourly.feature3", "Consultaties"),
   ("pricing.hourly.feature4", "Minimum 2 uur"),
   ("pricing.project.title", "Project Gebaseerd"),
   ("pricing.project.price", "€599<span>-€2499</span>"),
   ("pricing.project.feature1", "Vaste prijs pakketten"),
   ("pricing.project.feature2", "Geen verrassingskosten"),
   ("pricing.project.feature3", "3 maanden ondersteuning"),
   ("pricing.project.feature4", "Broncode inbegrepen"),
   ("pricing.maintenance.title", "Onderhoud"),
   ("pricing.maintenance.price", "€99<span>/maand</span>"),
   ("pricing.maintenance.feature1", "Regelmatige updates"),
   ("pricing.maintenance.feature2", "Beveiligingsmonitoring"),
   ("pricing.maintenance.feature3", "Backup & herstel"),
   ("pricing.maintenance.feature4", "Prioriteitsondersteuning"),
   ("pricing.contact", "Offerte Aanvragen"),
   ("pricing.recommended", "Aanbevolen"),
   ("nav.process", "Proces"),
   ("nav.pricing", "Prijzen"),
   ("contact.title", "Contact"),
   ("contact.email", "✉️ bilal.khasakhanov@gmail.com"),
   ("contact.phone", "📞 +32 490 43 72 44"),
   ("contact.location", "📍 Oudenaarde, België"),
   ("contact.form.name", "Uw naam"),
   ("contact.form.email", "E‑mail"),
   ("contact.form.message", "Vertel me over uw project..."),
   ("contact.form.send", "Bericht Versturen"),
   ("contact.form.projectType", "Project Type"),
   ("contact.form.selectProject", "Selecteer Project Type"),
   ("contact.form.landing", "Landingspagina (€599)"),
   ("contact.form.business", "Bedrijfswebsite (€1299)"),
   ("contact.form.ecommerce", "E-commerce Winkel (€2499)"),
   ("contact.form.custom", "Aangepast Project"),
   ("contact.form.maintenance", "Onderhoud (€199/maand)"),
   ("contact.form.consultation", "Consultatie (€65/uur)"),
   ("contact.form.budget", "Budget Range"),
   ("contact.form.selectBudget", "Selecteer Budget Range"),
   ("contact.form.budget1", "€500 - €1000"),
   ("contact.form.budget2", "€1000 - €2000"),
   ("contact.form.budget3", "€2000 - €3000"),
   ("contact.form.budget4", "€3000+"),
   ("contact.form.budget5", "Laten we bespreken"),
   ("contact.form.company", "Bedrijf (Optioneel)"),
   ("contact.form.phone", "Telefoon (Optioneel)"),
   ("contact.form.newsletter", "Abonneer op mijn nieuwsbrief voor web development tips"),
   ("about.title", "Over Mij"),
   ("about.lead", "Ik ben Bilal Khasakhanov, een 23‑jarige Full‑Stack webontwikkelaar die end‑to‑end digitale producten creëert — van ontwerp tot implementatie."),
   ("about.desc", "Ik ontwerp schone, gebruiksvriendelijke interfaces en bouw betrouwbare back‑end services met productie‑klaar hosting en infrastructuur. Mijn focus ligt op prestaties, toegankelijkheid en onderhoudbare code die schaalt. Ik geniet ervan ideeën om te zetten in verfijnde, real‑world oplossingen."),
   ("about.cta1", "Bekijk mijn werk"),
   ("about.cta2", "Huur me in"),
   ("about.stats1", "Jaar ervaring"),
   ("about.stats2", "Projecten"),
   ("about.stats3", "Tevreden klanten"),
   ("about.badge", "Beschikbaar voor werk"),
   ("footer.copyright", "Alle rechten voorbehouden."),
   ("notification.success", "Bedankt voor je bericht! Ik neem binnenkort contact met je op."),
   ("notification.error.fields", "Vul alle velden in"),
   ("notification.error.email", "Voer een geldig e-mailadres in"),
   ("notification.error.network", "Netwerkfout. Controleer je verbinding en probeer opnieuw."),
   ("notification.error.form", "Formulier endpoint niet geconfigureerd. Geef je Formspree ID op."),
   ("notification.error.submit", "Verzending mislukt. Probeer later opnieuw.")]

/-- The property names every ordinary object inherits from `Object.prototype`; the
object literal `translations` and its two dictionaries are such objects, and each
of these names yields a truthy value (a function or, for `__proto__`, the prototype
itself). -/
def objectPrototypeNames : List String :=
  ["constructor", "__defineGetter__", "__defineSetter__", "hasOwnProperty",
   "__lookupGetter__", "__lookupSetter__", "isPrototypeOf", "propertyIsEnumerable",
   "toString", "valueOf", "__proto__", "toLocaleString"]

/-- The value of `translations[lang] || translations.en`: one of the dictionaries, or
the built-in that the property lookup found on the prototype chain. -/
inductive Dict where
  | table (entries : List (String × String))
  | builtin (name : String)
  deriving DecidableEq, Repr

/-- Line 836: `translations[lang] || translations.en`. An own property wins, then an
inherited one (truthy, so the fallback is not taken), then the fallback. -/
def dictFor (lang : String) : Dict :=
  if lang = "en" then .table en
  else if lang = "nl" then .table nl
  else if lang ∈ objectPrototypeNames then .builtin lang
  else .table en

/-- The test `if (dict[key])` of lines 839 and 845 together with the value assigned
when it passes; `none` when `dict[key]` is `undefined` or the empty string.
`builtinProp name key` tells whether the built-in `Object.prototype[name]` has a
truthy property `key`, which is for the JavaScript engine to say. -/
def Dict.get (builtinProp : String → String → Bool) : Dict → String → Option Content
  | .table entries, key =>
    match entries.lookup key with
    | some v => if v = "" then none else some (.html v)
    | none => if key ∈ objectPrototypeNames then some (.builtin [key]) else none
  | .builtin name, key =>
    if builtinProp name key then some (.builtin [name, key]) else none

/-- An element of the page as far as `applyTranslations` is concerned: its
`data-i18n` and `data-i18n-placeholder` attributes (`none` when absent), its
content and its `placeholder` attribute. -/
structure Element where
  i18n : Option String
  i18nPlaceholder : Option String
  innerHTML : Content
  placeholder : Option Content
  deriving DecidableEq, Repr

/-- Lines 837-842, the body of the first loop, for one element. -/
def translateContent (builtinProp : String → String → Bool) (dict : Dict) (el : Element) :
    Element :=
  match el.i18n with
  | none => el
  | some key =>
    match dict.get builtinProp key with
    | some v => { el with innerHTML := v }
    | none => el

/-- Lines 843-848, the body of the second loop, for one element. -/
def translatePlaceholder (builtinProp : String → String → Bool) (dict : Dict) (el : Element) :
    Element :=
  match el.i18nPlaceholder with
  | none => el
  | some key =>
    match dict.get builtinProp key with
    | some v => { el with placeholder := some v }
    | none => el

/-- Lines 835-849. The page is the list of its elements that carry one of the two
attributes, none of them inside another. -/
def applyTranslations (builtinProp : String → String → Bool) (lang : String)
    (page : List Element) : List Element :=
  let dict := dictFor lang
  (page.map (translateContent builtinProp dict)).map (translatePlaceholder builtinProp dict)

/-- A navigation link showing `Start` under the key `nav.home`. -/
def homeLink : Element :=
  { i18n := some "nav.home", i18nPlaceholder := none, innerHTML := .html "Start",
    placeholder := none }

/-- A footer line showing the Dutch copyright notice under the key `footer.copyright`. -/
def footerLine : Element :=
  { i18n := some "footer.copyright", i18nPlaceholder := none,
    innerHTML := .html "Alle rechten voorbehouden.", placeholder := none }

end I18n

namespace Carousel

/-! ## Frame lemmas: what a render leaves alone -/

theorem cardsPerView_cases (s : State) : cardsPerView s = 1 ∨ cardsPerView s = 3 := by
  unfold cardsPerView cardsPerViewAt
  split <;> simp

theorem cardsPerView_pos (s : State) : 0 < cardsPerView s := by
  rcases cardsPerView_cases s with h | h <;> omega

theorem totalDots_pos (s : State) (hN : 1 ≤ s.totalCards) : 1 ≤ totalDots s := by
  unfold totalDots
  rcases cardsPerView_cases s with h | h <;> rw [h] <;> omega

theorem totalDots_eq_ceil (s : State) :
    totalDots s = ⌈(s.totalCards : ℚ) / (cardsPerView s : ℚ)⌉₊ := by
  have hc := cardsPerView_pos s
  have hcq : (0 : ℚ) < (cardsPerView s : ℚ) := by exact_mod_cast hc
  apply le_antisymm
  · have h := Nat.le_ceil ((s.totalCards : ℚ) / (cardsPerView s : ℚ))
    rw [div_le_iff₀ hcq] at h
    have h2 : s.totalCards ≤ ⌈(s.totalCards : ℚ) / (cardsPerView s : ℚ)⌉₊ * cardsPerView s := by
      exact_mod_cast h
    unfold totalDots
    rw [Nat.div_le_iff_le_mul_add_pred hc]
    rw [Nat.mul_comm]
    omega
  · rw [Nat.ceil_le, div_le_iff₀ hcq]
    have h2 : s.totalCards ≤ totalDots s * cardsPerView s := by
      unfold totalDots
      have := Nat.div_add_mod (s.totalCards + cardsPerView s - 1) (cardsPerView s)
      have := Nat.mod_lt (s.totalCards + cardsPerView s - 1) hc
      rw [Nat.mul_comm]
      omega
    exact_mod_cast h2

theorem updateCarousel_frame (s : State) :
    (updateCarousel s).state.currentIndex = s.currentIndex ∧
    (updateCarousel s).state.isViewAll = s.isViewAll ∧
    (updateCarousel s).state.totalCards = s.totalCards ∧
    (updateCarousel s).state.setupInnerWidth = s.setupInnerWidth ∧
    (updateCarousel s).state.viewport = s.viewport ∧
    (updateCarousel s).state.viewAllBtn = s.viewAllBtn := by
  unfold updateCarousel setDotsDisplay
  split
  · split <;> simp [Outcome.state]
  · split
    · simp [Outcome.state]
    · dsimp only
      split <;> simp [Outcome.state]

theorem updateDots_frame (s : State) :
    (updateDots s).state.currentIndex = s.currentIndex ∧
    (updateDots s).state.isViewAll = s.isViewAll ∧
    (updateDots s).state.totalCards = s.totalCards ∧
    (updateDots s).state.setupInnerWidth = s.setupInnerWidth ∧
    (updateDots s).state.viewport = s.viewport ∧
    (updateDots s).state.viewAllBtn = s.viewAllBtn ∧
    (updateDots s).state.transform = s.transform := by
  unfold updateDots
  split <;> simp [Outcome.state]

theorem andThen_updateDots_frame (o : Outcome) :
    (o.andThen updateDots).state.currentIndex = o.state.currentIndex ∧
    (o.andThen updateDots).state.isViewAll = o.state.isViewAll ∧
    (o.andThen updateDots).state.totalCards = o.state.totalCards ∧
    (o.andThen updateDots).state.setupInnerWidth = o.state.setupInnerWidth ∧
    (o.andThen updateDots).state.viewport = o.state.viewport ∧
    (o.andThen updateDots).state.viewAllBtn = o.state.viewAllBtn ∧
    (o.andThen updateDots).state.transform = o.state.transform := by
  cases o with
  | ok s => exact updateDots_frame s
  | threw s => simp [Outcome.andThen, Outcome.state]

/-- A render followed by a dot update keeps the closure variables it was given. -/
theorem render_frame (s : State) :
    ((updateCarousel s).andThen updateDots).state.currentIndex = s.currentIndex ∧
    ((updateCarousel s).andThen updateDots).state.isViewAll = s.isViewAll ∧
    ((updateCarousel s).andThen updateDots).state.totalCards = s.totalCards ∧
    ((updateCarousel s).andThen updateDots).state.setupInnerWidth = s.setupInnerWidth := by
  obtain ⟨a1, a2, a3, a4, _, _, _⟩ := andThen_updateDots_frame (updateCarousel s)
  obtain ⟨b1, b2, b3, b4, _, _⟩ := updateCarousel_frame s
  exact ⟨a1.trans b1, a2.trans b2, a3.trans b3, a4.trans b4⟩

theorem totalDots_congr (s t : State) (h1 : t.totalCards = s.totalCards)
    (h2 : t.setupInnerWidth = s.setupInnerWidth) : totalDots t = totalDots s := by
  unfold totalDots cardsPerView
  rw [h1, h2]

theorem goToSlide_index (k : Int) (s : State) :
    (goToSlide k s).state.currentIndex = max 0 (min k (maxIndex s)) := by
  unfold goToSlide
  exact (render_frame _).1

theorem nextSlide_index (s : State) :
    (nextSlide s).state.currentIndex =
      if s.currentIndex < maxIndex s then s.currentIndex + 1 else 0 := by
  unfold nextSlide
  dsimp only
  rw [(render_frame _).1]
  split <;> rfl

theorem prevSlide_index (s : State) :
    (prevSlide s).state.currentIndex =
      if s.currentIndex > 0 then s.currentIndex - 1 else maxIndex s := by
  unfold prevSlide
  dsimp only
  rw [(render_frame _).1]
  split <;> rfl

theorem nextSlide_totalDots (s : State) : totalDots (nextSlide s).state = totalDots s := by
  unfold nextSlide
  dsimp only
  apply totalDots_congr
  · rw [(render_frame _).2.2.1]; split <;> rfl
  · rw [(render_frame _).2.2.2]; split <;> rfl

theorem prevSlide_totalDots (s : State) : totalDots (prevSlide s).state = totalDots s := by
  unfold prevSlide
  dsimp only
  apply totalDots_congr
  · rw [(render_frame _).2.2.1]; split <;> rfl
  · rw [(render_frame _).2.2.2]; split <;> rfl

theorem step_totalDots (s : State) (c : Nav) : totalDots (step s c) = totalDots s := by
  cases c
  · exact nextSlide_totalDots s
  · exact prevSlide_totalDots s

theorem step_totalCards (s : State) (c : Nav) : (step s c).totalCards = s.totalCards := by
  cases c
  · unfold step nextSlide
    dsimp only
    rw [(render_frame _).2.2.1]; split <;> rfl
  · unfold step prevSlide
    dsimp only
    rw [(render_frame _).2.2.1]; split <;> rfl

theorem step_inRange (s : State) (c : Nav) (hN : 1 ≤ s.totalCards) (h : InRange s) :
    InRange (step s c) := by
  have hP := totalDots_pos s hN
  unfold InRange at h ⊢
  rw [step_totalDots]
  cases c
  · show 0 ≤ (nextSlide s).state.currentIndex ∧ (nextSlide s).state.currentIndex ≤ _
    rw [nextSlide_index]
    unfold maxIndex
    split <;> omega
  · show 0 ≤ (prevSlide s).state.currentIndex ∧ (prevSlide s).state.currentIndex ≤ _
    rw [prevSlide_index]
    unfold maxIndex
    split <;> omega

theorem run_inRange (cmds : List Nav) (s : State) (hN : 1 ≤ s.totalCards) (h : InRange s) :
    InRange (run s cmds) := by
  induction cmds generalizing s with
  | nil => exact h
  | cons c cs ih =>
    show InRange (run (step s c) cs)
    exact ih (step s c) (by rw [step_totalCards]; exact hN) (step_inRange s c hN h)

theorem createDots_frame (s : State) :
    (createDots s).currentIndex = s.currentIndex ∧
    (createDots s).isViewAll = s.isViewAll ∧
    (createDots s).totalCards = s.totalCards ∧
    (createDots s).setupInnerWidth = s.setupInnerWidth ∧
    (createDots s).viewport = s.viewport ∧
    (createDots s).viewAllBtn = s.viewAllBtn := by
  unfold createDots
  split <;> simp

/-- Whatever the page, a carousel that was set up starts at index 0 in paged mode,
over the cards and the window width the page had. -/
theorem setupCarousel_state (p : Page) (o : Outcome) (h : setupCarousel p = some o) :
    o.state.currentIndex = 0 ∧ o.state.isViewAll = false ∧
    o.state.totalCards = p.totalCards ∧ o.state.setupInnerWidth = p.viewport.innerWidth := by
  unfold setupCarousel at h
  split at h
  · exact absurd h (by simp)
  · split at h
    · injection h with h
      subst h
      simp [Outcome.state, initialState]
    · injection h with h
      subst h
      obtain ⟨a1, a2, a3, a4, _, _⟩ := updateCarousel_frame (createDots (initialState p))
      obtain ⟨b1, b2, b3, b4, _, _⟩ := createDots_frame (initialState p)
      rw [a1, a2, a3, a4, b1, b2, b3, b4]
      simp [initialState]

/-- After `k` presses of the next arrow the index has advanced by `k` modulo the page count. -/
theorem iterate_nextSlide (s : State) (hN : 1 ≤ s.totalCards) (h : InRange s) (k : Nat) :
    totalDots ((fun t => (nextSlide t).state)^[k] s) = totalDots s ∧
    ((fun t => (nextSlide t).state)^[k] s).currentIndex
      = (s.currentIndex + (k : Int)) % (totalDots s : Int) := by
  have hP := totalDots_pos s hN
  have hP0 : (0 : Int) < (totalDots s : Int) := by exact_mod_cast hP
  induction k with
  | zero =>
    refine ⟨rfl, ?_⟩
    unfold InRange at h
    simp only [Function.iterate_zero, id_eq, Nat.cast_zero, add_zero]
    rw [Int.emod_eq_of_lt h.1 (by omega)]
  | succ n ih =>
    obtain ⟨ih1, ih2⟩ := ih
    rw [Function.iterate_succ_apply']
    refine ⟨by rw [nextSlide_totalDots, ih1], ?_⟩
    have e := nextSlide_index ((fun t => (nextSlide t).state)^[n] s)
    unfold maxIndex at e
    rw [ih1, ih2] at e
    have hr0 := Int.emod_nonneg (s.currentIndex + (n : Int)) (ne_of_gt hP0)
    have hr1 := Int.emod_lt_of_pos (s.currentIndex + (n : Int)) hP0
    have hstep : (s.currentIndex + ((n + 1 : Nat) : Int)) % (totalDots s : Int)
        = ((s.currentIndex + (n : Int)) % (totalDots s : Int) + 1) % (totalDots s : Int) := by
      rw [Int.emod_add_cancel_right 1 |>.mpr (Int.emod_emod_of_dvd _ (dvd_refl _))]
      congr 1
      push_cast
      ring
    rw [e, hstep]
    by_cases hlt : (s.currentIndex + (n : Int)) % (totalDots s : Int) < (totalDots s : Int) - 1
    · rw [if_pos hlt]
      exact (Int.emod_eq_of_lt (by omega) (by omega)).symm
    · rw [if_neg hlt]
      have : (s.currentIndex + (n : Int)) % (totalDots s : Int) + 1 = (totalDots s : Int) := by
        omega
      rw [this, Int.emod_self]

/-! ## Navigation (claims C1 to C5) -/

/-- C1: on a non-empty carousel the page size is 1 or 3, the page count is the
ceiling of N / pageSize, and for every integer `k` (negative, in range, or beyond
the last page) `goToSlide k` leaves `currentIndex` equal to `k` clamped into
`[0, pageCount - 1]`; with 7 cards and page size 3, `goToSlide 10` leaves index 2
whatever the state was. -/
theorem goToSlide_clamps (s : State) (k : Int) (hN : 1 ≤ s.totalCards) :
    (cardsPerView s = 1 ∨ cardsPerView s = 3) ∧
    totalDots s = ⌈(s.totalCards : ℚ) / (cardsPerView s : ℚ)⌉₊ ∧
    (goToSlide k s).state.currentIndex =
      (if k < 0 then 0
       else if (totalDots s : Int) - 1 < k then (totalDots s : Int) - 1
       else k) ∧
    (s.totalCards = 7 → cardsPerView s = 3 → (goToSlide 10 s).state.currentIndex = 2) := by
  have hP := totalDots_pos s hN
  refine ⟨cardsPerView_cases s, totalDots_eq_ceil s, ?_, ?_⟩
  · rw [goToSlide_index]
    unfold maxIndex
    split
    · omega
    · split <;> omega
  · intro h7 h3
    rw [goToSlide_index]
    unfold maxIndex totalDots
    rw [h7, h3]
    decide

theorem goToSlide_clamps_witness :
    1 ≤ (constructed 7 wide).totalCards ∧
    (goToSlide 10 (constructed 7 wide)).state.currentIndex = 2 :=
  ⟨by decide,
   (goToSlide_clamps (constructed 7 wide) 10 (by decide)).2.2.2 (by decide) (by decide)⟩

/-- C2: `nextSlide` sets `currentIndex` to `currentIndex + 1` when it is below
`pageCount - 1` and to 0 otherwise (in particular for every non-empty carousel and
every index in range); with 7 cards and page size 3, three calls from index 0
give 1, 2, 0. -/
theorem nextSlide_advances_or_wraps (s : State) :
    (nextSlide s).state.currentIndex =
      (if s.currentIndex < (totalDots s : Int) - 1 then s.currentIndex + 1 else 0) ∧
    (s.totalCards = 7 → cardsPerView s = 3 → s.currentIndex = 0 →
      (nextSlide s).state.currentIndex = 1 ∧
      (nextSlide (nextSlide s).state).state.currentIndex = 2 ∧
      (nextSlide (nextSlide (nextSlide s).state).state).state.currentIndex = 0) := by
  refine ⟨nextSlide_index s, ?_⟩
  intro h7 h3 h0
  have hd : totalDots s = 3 := by unfold totalDots; rw [h7, h3]
  have e1 : (nextSlide s).state.currentIndex = 1 := by
    rw [nextSlide_index]; unfold maxIndex; rw [hd, h0]; decide
  have d1 : totalDots (nextSlide s).state = 3 := by rw [nextSlide_totalDots, hd]
  have e2 : (nextSlide (nextSlide s).state).state.currentIndex = 2 := by
    rw [nextSlide_index]; unfold maxIndex; rw [d1, e1]; decide
  have d2 : totalDots (nextSlide (nextSlide s).state).state = 3 := by
    rw [nextSlide_totalDots, d1]
  refine ⟨e1, e2, ?_⟩
  rw [nextSlide_index]; unfold maxIndex; rw [d2, e2]; decide

theorem nextSlide_advances_or_wraps_witness :
    (nextSlide (constructed 7 wide)).state.currentIndex = 1 ∧
    (nextSlide (nextSlide (constructed 7 wide)).state).state.currentIndex = 2 ∧
    (nextSlide (nextSlide (nextSlide (constructed 7 wide)).state).state).state.currentIndex
      = 0 :=
  (nextSlide_advances_or_wraps (constructed 7 wide)).2 (by decide) (by decide) (by decide)

/-- C3: `prevSlide` sets `currentIndex` to `currentIndex - 1` when it is positive
and to `pageCount - 1` when it is 0. -/
theorem prevSlide_retreats_or_wraps (s : State) :
    (0 < s.currentIndex → (prevSlide s).state.currentIndex = s.currentIndex - 1) ∧
    (s.currentIndex = 0 → (prevSlide s).state.currentIndex = (totalDots s : Int) - 1) := by
  constructor
  · intro h
    rw [prevSlide_index, if_pos h]
  · intro h
    rw [prevSlide_index, if_neg (by omega)]
    rfl

theorem prevSlide_retreats_or_wraps_witness :
    (prevSlide (goToSlide 2 (constructed 7 wide)).state).state.currentIndex = 1 ∧
    (prevSlide (constructed 7 wide)).state.currentIndex = 2 :=
  ⟨(prevSlide_retreats_or_wraps (goToSlide 2 (constructed 7 wide)).state).1 (by decide),
   (prevSlide_retreats_or_wraps (constructed 7 wide)).2 (by decide)⟩

/-- C4, as stated, fails for an empty collection: the page count is 0, so the
interval `[0, pageCount - 1]` is empty, the constructed index 0 is outside it,
and one `prevSlide` moves the index to -1. -/
theorem index_range_fails_without_cards :
    totalDots (constructed 0 wide) = 0 ∧
    (constructed 0 wide).currentIndex = 0 ∧
    ¬ InRange (run (constructed 0 wide) []) ∧
    (run (constructed 0 wide) [Nav.prev]).currentIndex = -1 ∧
    ¬ InRange (run (constructed 0 wide) [Nav.prev]) := by
  decide

/-- C4, amended: for every page with at least one card on which `setupCarousel`
builds a carousel, the constructed index is 0 and after any finite sequence of
`nextSlide` / `prevSlide` calls `currentIndex` lies in `[0, pageCount - 1]`. -/
theorem index_stays_in_range (p : Page) (o : Outcome) (cmds : List Nav)
    (hsetup : setupCarousel p = some o) (hN : 1 ≤ p.totalCards) :
    o.state.currentIndex = 0 ∧ InRange (run o.state cmds) := by
  obtain ⟨h0, _, hT, _⟩ := setupCarousel_state p o hsetup
  refine ⟨h0, run_inRange cmds o.state (by rw [hT]; exact hN) ?_⟩
  have hP := totalDots_pos o.state (by rw [hT]; exact hN)
  unfold InRange
  rw [h0]
  omega

theorem index_stays_in_range_witness :
    (updateCarousel (createDots (initialState (fullPage 7 wide)))).state.currentIndex = 0 ∧
    InRange (run (updateCarousel (createDots (initialState (fullPage 7 wide)))).state
      [Nav.prev, Nav.prev, Nav.next, Nav.next, Nav.next]) :=
  index_stays_in_range (fullPage 7 wide) _ [Nav.prev, Nav.prev, Nav.next, Nav.next, Nav.next]
    (by rfl) (by decide)

/-- C5: on a non-empty carousel with the index in range, `pageCount` calls of
`nextSlide` bring `currentIndex` back to where it started. -/
theorem nextSlide_cycle (s : State) (hN : 1 ≤ s.totalCards) (h : InRange s) :
    ((fun t => (nextSlide t).state)^[totalDots s] s).currentIndex = s.currentIndex := by
  rw [(iterate_nextSlide s hN h (totalDots s)).2, Int.add_emod_self]
  unfold InRange at h
  exact Int.emod_eq_of_lt h.1 (by omega)

theorem nextSlide_cycle_witness :
    ((fun t => (nextSlide t).state)^[totalDots (goToSlide 1 (constructed 7 wide)).state]
      (goToSlide 1 (constructed 7 wide)).state).currentIndex
      = (goToSlide 1 (constructed 7 wide)).state.currentIndex :=
  nextSlide_cycle (goToSlide 1 (constructed 7 wide)).state (by decide) (by decide)

/-! ## Resizing, view mode and rendering (claims C6 to C10) -/

theorem onResize_frame (s : State) :
    (onResize s).state.currentIndex = s.currentIndex ∧
    (onResize s).state.isViewAll = s.isViewAll ∧
    (onResize s).state.totalCards = s.totalCards ∧
    (onResize s).state.setupInnerWidth = s.setupInnerWidth ∧
    (onResize s).state.viewport = s.viewport := by
  obtain ⟨a1, a2, a3, a4, a5, _⟩ := updateCarousel_frame (createDots s)
  obtain ⟨b1, b2, b3, b4, b5, _⟩ := createDots_frame s
  exact ⟨a1.trans b1, a2.trans b2, a3.trans b3, a4.trans b4, a5.trans b5⟩

theorem updateCarousel_transform (s : State) (hN : 1 ≤ s.totalCards) :
    (updateCarousel s).state.transform =
      if s.isViewAll then Transform.zero
      else Transform.px
        (-s.currentIndex * ((s.viewport.cardOffsetWidth : Int) + 32) * (cardsPerView s : Int)) := by
  have h0 : s.totalCards ≠ 0 := by omega
  unfold updateCarousel setDotsDisplay firstCardOffsetWidth
  rw [if_neg h0]
  split
  · split <;> simp [Outcome.state]
  · dsimp only
    split <;> simp [Outcome.state]

/-- C6, evaluated where the code departs from it: with 7 cards set up in a narrow
window (page size 1, 7 pages) and the index at 6, a resize to a wide window, where
line 390 would give page size 3, leaves page size 1, page count 7 and
`currentIndex` 6, not 3, 3 and 2. The other way round, a carousel set up wide and
resized to a narrow window keeps page size 3 where line 390 would give 1. -/
theorem resize_keeps_page_size_and_index :
    cardsPerView (goToSlide 6 (constructed 7 narrow)).state = 1 ∧
    totalDots (goToSlide 6 (constructed 7 narrow)).state = 7 ∧
    (goToSlide 6 (constructed 7 narrow)).state.currentIndex = 6 ∧
    cardsPerViewAt wide.innerWidth = 3 ∧
    (resize wide (goToSlide 6 (constructed 7 narrow)).state).state.viewport = wide ∧
    cardsPerView (resize wide (goToSlide 6 (constructed 7 narrow)).state).state = 1 ∧
    totalDots (resize wide (goToSlide 6 (constructed 7 narrow)).state).state = 7 ∧
    (resize wide (goToSlide 6 (constructed 7 narrow)).state).state.currentIndex = 6 ∧
    ¬ ((resize wide (goToSlide 6 (constructed 7 narrow)).state).state.currentIndex = 2) ∧
    cardsPerViewAt narrow.innerWidth = 1 ∧
    (resize narrow (constructed 7 wide)).state.viewport = narrow ∧
    cardsPerView (resize narrow (constructed 7 wide)).state = 3 ∧
    totalDots (resize narrow (constructed 7 wide)).state = 3 := by
  decide

/-- What a resize event does in full: the page size stays the one computed at setup,
hence the page count, and `currentIndex` and the view mode stay as they were; one
dot per page is rebuilt when there is a dot strip and, on a non-empty carousel, the
offset is rendered again from the card width now reported. -/
theorem resize_rebuilds_and_rerenders (s : State) (v : Viewport) :
    cardsPerView (resize v s).state = cardsPerView s ∧
    totalDots (resize v s).state = totalDots s ∧
    (resize v s).state.currentIndex = s.currentIndex ∧
    (resize v s).state.isViewAll = s.isViewAll ∧
    (resize v s).state.viewport = v ∧
    (∀ d, s.dotsContainer = some d →
      ∃ e, (resize v s).state.dotsContainer = some e ∧ e.dots.length = totalDots s) ∧
    (1 ≤ s.totalCards →
      (resize v s).state.transform =
        if s.isViewAll then Transform.zero
        else Transform.px
          (-s.currentIndex * ((v.cardOffsetWidth : Int) + 32) * (cardsPerView s : Int))) := by
  obtain ⟨h1, h2, h3, h4, h5⟩ := onResize_frame { s with viewport := v }
  have hc : cardsPerView (resize v s).state = cardsPerView s := by
    unfold cardsPerView resize
    rw [h4]
  have hd : totalDots (resize v s).state = totalDots s :=
    totalDots_congr s (resize v s).state h3 h4
  refine ⟨hc, hd, h1, h2, h5, ?_, ?_⟩
  · intro d hdots
    unfold resize onResize updateCarousel setDotsDisplay createDots
    simp only [hdots]
    split
    · exact ⟨_, rfl, by simp [totalDots, cardsPerView]⟩
    · split
      · exact ⟨_, rfl, by simp [totalDots, cardsPerView]⟩
      · exact ⟨_, rfl, by simp [totalDots, cardsPerView]⟩
  · intro hN
    unfold resize onResize
    obtain ⟨b1, b2, b3, b4, b5, _⟩ := createDots_frame { s with viewport := v }
    rw [updateCarousel_transform _ (by rw [b3]; exact hN), b1, b2, b5]
    unfold cardsPerView
    rw [b4]

theorem resize_rebuilds_and_rerenders_witness :
    (resize wide (goToSlide 6 (constructed 7 narrow)).state).state.transform =
      Transform.px (-2400) :=
  (resize_rebuilds_and_rerenders (goToSlide 6 (constructed 7 narrow)).state wide).2.2.2.2.2.2
    (by decide)

/-- C7: with the viewport metrics unchanged, running the resize handler a second
time gives the same outcome as running it once: the same closure variables and
the same page (dots and their active marks, transform, wrap mode, display of the
two arrows and of the dot strip), and it raises the second time exactly when it
raised the first time. The same holds for two resize events reporting the same
metrics. -/
theorem onResize_idempotent (s : State) (v : Viewport) :
    onResize (onResize s).state = onResize s ∧
    resize v (resize v s).state = resize v s := by
  have key : ∀ t : State, onResize (onResize t).state = onResize t := by
    intro t
    rcases t with ⟨n, w, vp, idx, va, tr, fw, jc, pd, nd, dc, btn⟩
    by_cases h0 : n = 0 <;> cases va <;> cases dc <;>
      simp [onResize, createDots, updateCarousel, setDotsDisplay, firstCardOffsetWidth,
        Outcome.state, totalDots, cardsPerView, h0]
  refine ⟨key s, ?_⟩
  unfold resize
  have hv : (onResize { s with viewport := v }).state.viewport = v :=
    (onResize_frame { s with viewport := v }).2.2.2.2
  have e : ({ (onResize { s with viewport := v }).state with viewport := v } : State)
      = (onResize { s with viewport := v }).state := by
    cases hs : (onResize { s with viewport := v }).state
    rw [hs] at hv
    simp only at hv
    simp [hv]
  rw [e]
  exact key _

/-- C8: `toggleViewAll` flips the view mode and leaves `currentIndex` unchanged;
two calls in succession restore the view mode and leave `currentIndex` unchanged;
and when the carousel was paged, has cards and a view-all button, the second call
renders the very offset that a paged render of the original state gives. -/
theorem toggleViewAll_involutive (s : State) :
    (toggleViewAll s).state.isViewAll = (!s.isViewAll) ∧
    (toggleViewAll s).state.currentIndex = s.currentIndex ∧
    (toggleViewAll (toggleViewAll s).state).state.isViewAll = s.isViewAll ∧
    (toggleViewAll (toggleViewAll s).state).state.currentIndex = s.currentIndex ∧
    (s.isViewAll = false → s.viewAllBtn.isSome = true → 1 ≤ s.totalCards →
      (toggleViewAll (toggleViewAll s).state).state.transform
        = (updateCarousel s).state.transform ∧
      (toggleViewAll (toggleViewAll s).state).state.transform
        = Transform.px
          (-s.currentIndex * ((s.viewport.cardOffsetWidth : Int) + 32)
            * (cardsPerView s : Int))) := by
  have frame : ∀ t : State,
      (toggleViewAll t).state.isViewAll = (!t.isViewAll) ∧
      (toggleViewAll t).state.currentIndex = t.currentIndex ∧
      (toggleViewAll t).state.totalCards = t.totalCards ∧
      (toggleViewAll t).state.setupInnerWidth = t.setupInnerWidth ∧
      (toggleViewAll t).state.viewport = t.viewport ∧
      (toggleViewAll t).state.viewAllBtn.isSome = t.viewAllBtn.isSome := by
    intro t
    unfold toggleViewAll
    dsimp only
    split
    · rename_i hb
      simp [Outcome.state, hb]
    · rename_i b hb
      obtain ⟨a1, a2, a3, a4, a5, a6⟩ := updateCarousel_frame
        { t with
          isViewAll := !t.isViewAll
          viewAllBtn := some (if (!t.isViewAll) = true then "Show Less" else "View All") }
      rw [a1, a2, a3, a4, a5, a6]
      simp [hb]
  have transf : ∀ t : State, t.viewAllBtn.isSome = true → 1 ≤ t.totalCards →
      (toggleViewAll t).state.transform =
        if (!t.isViewAll) = true then Transform.zero
        else Transform.px
          (-t.currentIndex * ((t.viewport.cardOffsetWidth : Int) + 32)
            * (cardsPerView t : Int)) := by
    intro t hb hN
    unfold toggleViewAll
    dsimp only
    split
    · rename_i hnone
      rw [hnone] at hb
      exact absurd hb (by simp)
    · exact updateCarousel_transform
        { t with
          isViewAll := !t.isViewAll
          viewAllBtn := some (if (!t.isViewAll) = true then "Show Less" else "View All") } hN
  obtain ⟨f1, f2, f3, f4, f5, f6⟩ := frame s
  obtain ⟨g1, g2, _, _, _, _⟩ := frame (toggleViewAll s).state
  refine ⟨f1, f2, ?_, ?_, ?_⟩
  · rw [g1, f1, Bool.not_not]
  · rw [g2, f2]
  · intro hp hb hN
    have h2 := transf (toggleViewAll s).state (by rw [f6]; exact hb) (by rw [f3]; exact hN)
    rw [f1, f2, f5, hp] at h2
    have hc : cardsPerView (toggleViewAll s).state = cardsPerView s := by
      unfold cardsPerView
      rw [f4]
    rw [hc] at h2
    have h3 := updateCarousel_transform s hN
    rw [hp] at h3
    simp only [Bool.not_false, Bool.not_true, Bool.false_eq_true, if_false] at h2 h3
    exact ⟨h2.trans h3.symm, h2⟩

theorem toggleViewAll_involutive_witness :
    (toggleViewAll (toggleViewAll (goToSlide 2 (constructed 7 wide)).state).state).state.transform
      = (updateCarousel (goToSlide 2 (constructed 7 wide)).state).state.transform ∧
    (toggleViewAll (toggleViewAll (goToSlide 2 (constructed 7 wide)).state).state).state.transform
      = Transform.px (-2400) :=
  (toggleViewAll_involutive (goToSlide 2 (constructed 7 wide)).state).2.2.2.2
    (by decide) (by decide) (by decide)

/-- C9: on a non-empty carousel the track offset written by `updateCarousel` is
`-currentIndex * pageSize * (cardWidth + 32)` pixels in paged mode, `cardWidth`
being the offset width of the first card, and 0 in show-all mode whatever
`currentIndex` is. -/
theorem updateCarousel_offset (s : State) (hN : 1 ≤ s.totalCards) :
    (s.isViewAll = false →
      (updateCarousel s).state.transform.offset
        = -s.currentIndex * (cardsPerView s : Int) * ((s.viewport.cardOffsetWidth : Int) + 32)) ∧
    (s.isViewAll = true → (updateCarousel s).state.transform.offset = 0) := by
  have h := updateCarousel_transform s hN
  constructor
  · intro hp
    rw [h, hp]
    simp only [Bool.false_eq_true, if_false, Transform.offset]
    ring
  · intro hv
    rw [h, hv]
    rfl

theorem updateCarousel_offset_witness :
    (updateCarousel (goToSlide 2 (constructed 7 wide)).state).state.transform.offset
      = -2400 ∧
    (updateCarousel (toggleViewAll (goToSlide 2 (constructed 7 wide)).state).state).state.transform.offset
      = 0 :=
  ⟨(updateCarousel_offset (goToSlide 2 (constructed 7 wide)).state (by decide)).1 (by decide),
   (updateCarousel_offset (toggleViewAll (goToSlide 2 (constructed 7 wide)).state).state
      (by decide)).2 (by decide)⟩

/-- C10: after a render of a non-empty carousel the previous button and the next
button have display `flex` in paged mode and `none` in show-all mode, and so has
the dot strip whenever the page has one, in which case the render runs to
its end; so all three are shown exactly when the view mode is paged. -/
theorem updateCarousel_visibility (s : State) (hN : 1 ≤ s.totalCards) :
    ((updateCarousel s).state.prevDisplay = Display.flex ↔ s.isViewAll = false) ∧
    ((updateCarousel s).state.nextDisplay = Display.flex ↔ s.isViewAll = false) ∧
    ((updateCarousel s).state.prevDisplay = Display.none ↔ s.isViewAll = true) ∧
    ((updateCarousel s).state.nextDisplay = Display.none ↔ s.isViewAll = true) ∧
    (∀ d, s.dotsContainer = some d →
      (updateCarousel s).completed = true ∧
      (updateCarousel s).state.dotsContainer
        = some { d with display := if s.isViewAll then Display.none else Display.flex }) := by
  have h0 : s.totalCards ≠ 0 := by omega
  rcases s with ⟨n, w, vp, idx, va, tr, fw, jc, pd, nd, dc, btn⟩
  simp only at h0
  cases va <;> cases dc <;>
    simp [updateCarousel, setDotsDisplay, firstCardOffsetWidth, Outcome.state,
      Outcome.completed, h0]

theorem updateCarousel_visibility_witness :
    ((updateCarousel (constructed 7 wide)).state.prevDisplay = Display.flex
      ↔ (constructed 7 wide).isViewAll = false) ∧
    (updateCarousel (constructed 7 wide)).state.dotsContainer
      = some { display := Display.flex, dots := [true, false, false] } :=
  ⟨(updateCarousel_visibility (constructed 7 wide) (by decide)).1,
   ((updateCarousel_visibility (constructed 7 wide) (by decide)).2.2.2.2
      { display := Display.flex, dots := [true, false, false] } (by decide)).2⟩

/-! ## Dots, the empty collection and construction (claims C11 to C14, C16) -/

/-- C11, evaluated where the code departs from it: 7 cards in a wide window, set up
without an exception (so the resize listener is registered), one `nextSlide`, then
a resize event. `currentIndex` is 1, yet the rebuilt dot strip marks dot 0 active:
`createDots` hard-codes the first dot and the listener never calls `updateDots`. -/
theorem active_dot_lags_after_resize :
    (setupCarousel (fullPage 7 wide)).map Outcome.completed = some true ∧
    (nextSlide (constructed 7 wide)).state.currentIndex = 1 ∧
    (nextSlide (constructed 7 wide)).state.dotsContainer
      = some { display := Display.flex, dots := [false, true, false] } ∧
    (resize wide (nextSlide (constructed 7 wide)).state).state.currentIndex = 1 ∧
    (resize wide (nextSlide (constructed 7 wide)).state).state.dotsContainer
      = some { display := Display.flex, dots := [true, false, false] } := by
  decide

/-- C12, evaluated where the code departs from it: with no cards the page count is
0 and `maxIndex` is -1. `nextSlide` and `goToSlide 5` leave the state as it was,
but both raise in the paged render; `prevSlide` assigns `maxIndex`, so the index
becomes -1, and raises as well. -/
theorem prevSlide_moves_empty_carousel :
    totalDots (constructed 0 wide) = 0 ∧
    (constructed 0 wide).currentIndex = 0 ∧
    nextSlide (constructed 0 wide) = Outcome.threw (constructed 0 wide) ∧
    goToSlide 5 (constructed 0 wide) = Outcome.threw (constructed 0 wide) ∧
    (prevSlide (constructed 0 wide)).state.currentIndex = -1 ∧
    (prevSlide (constructed 0 wide)).completed = false ∧
    ¬ ((prevSlide (constructed 0 wide)).state = constructed 0 wide) := by
  decide

/-- C13, evaluated where the code departs from it: on a page with every element in
place and no card, `cards[0]` is `undefined`, so the render at the end of
`setupCarousel` raises, and so does every later paged render; the same happens on
a page with cards and no dot strip, where `createDots` returns early but
`updateCarousel` dereferences the missing container. -/
theorem updateCarousel_raises_without_cards :
    firstCardOffsetWidth (initialState (fullPage 0 wide)) = none ∧
    (setupCarousel (fullPage 0 wide)).map Outcome.completed = some false ∧
    (updateCarousel (constructed 0 wide)).completed = false ∧
    (nextSlide (constructed 0 wide)).completed = false ∧
    (prevSlide (constructed 0 wide)).completed = false ∧
    (goToSlide 0 (constructed 0 wide)).completed = false ∧
    (toggleViewAll (toggleViewAll (constructed 0 wide)).state).completed = false ∧
    (setupCarousel { fullPage 7 wide with dotsContainer := Option.none }).map Outcome.completed
      = some false := by
  decide

theorem createDots_dots (s : State) (d : DotsContainer) (h : s.dotsContainer = some d) :
    (createDots s).dotsContainer
      = some { d with dots := (List.range (totalDots s)).map (fun i => decide (i = 0)) } := by
  unfold createDots
  rw [h]

theorem updateCarousel_dots (s : State) (d : DotsContainer) (h : s.dotsContainer = some d) :
    ∃ e, (updateCarousel s).state.dotsContainer = some e ∧ e.dots = d.dots := by
  unfold updateCarousel setDotsDisplay
  split
  · simp only [h]
    exact ⟨_, rfl, rfl⟩
  · split
    · exact ⟨d, h, rfl⟩
    · simp only [h]
      exact ⟨_, rfl, rfl⟩

/-- C14: whenever `setupCarousel` builds a carousel, the page size is 1 for a
window at most 768 wide and 3 otherwise (so at least 1), `currentIndex` is 0 and
the view mode is paged; on a page that has the dot strip and the view-all button it
leaves exactly ceil(N / pageSize) dots. With 7 cards in a wide window the page
size is 3 and there are 3 dots. -/
theorem setupCarousel_constructs (p : Page) (o : Outcome) (hsetup : setupCarousel p = some o) :
    cardsPerView o.state = (if p.viewport.innerWidth ≤ 768 then 1 else 3) ∧
    1 ≤ cardsPerView o.state ∧
    o.state.currentIndex = 0 ∧
    o.state.isViewAll = false ∧
    (∀ d b, p.dotsContainer = some d → p.viewAllBtn = some b →
      ∃ e, o.state.dotsContainer = some e ∧
        e.dots.length = ⌈(p.totalCards : ℚ) / (cardsPerView o.state : ℚ)⌉₊) ∧
    (cardsPerView (constructed 7 wide) = 3 ∧
      ∃ e, (constructed 7 wide).dotsContainer = some e ∧ e.dots.length = 3) := by
  obtain ⟨h0, hv, hT, hW⟩ := setupCarousel_state p o hsetup
  have hc : cardsPerView o.state = (if p.viewport.innerWidth ≤ 768 then 1 else 3) := by
    unfold cardsPerView cardsPerViewAt
    rw [hW]
  refine ⟨hc, cardsPerView_pos o.state, h0, hv, ?_, by decide, ⟨_, by rfl, by decide⟩⟩
  intro d b hd hb
  have hceil := totalDots_eq_ceil o.state
  rw [hT] at hceil
  rw [← hceil]
  have htd : totalDots o.state = totalDots (initialState p) :=
    totalDots_congr (initialState p) o.state hT hW
  unfold setupCarousel at hsetup
  split at hsetup
  · exact absurd hsetup (by simp)
  · rw [hb] at hsetup
    simp only [Option.some.injEq] at hsetup
    subst hsetup
    have hcd := createDots_dots (initialState p) d hd
    obtain ⟨e, he, hdots⟩ := updateCarousel_dots (createDots (initialState p)) _ hcd
    refine ⟨e, he, ?_⟩
    rw [hdots, htd]
    simp

theorem setupCarousel_constructs_witness :
    cardsPerView (updateCarousel (createDots (initialState (fullPage 7 narrow)))).state
      = (if (fullPage 7 narrow).viewport.innerWidth ≤ 768 then 1 else 3) ∧
    (updateCarousel (createDots (initialState (fullPage 7 narrow)))).state.currentIndex = 0 :=
  ⟨(setupCarousel_constructs (fullPage 7 narrow) _ (by rfl)).1,
   (setupCarousel_constructs (fullPage 7 narrow) _ (by rfl)).2.2.1⟩

/-- C16: on a non-empty carousel with the index in range, `prevSlide` after
`nextSlide` and `nextSlide` after `prevSlide` both bring `currentIndex` back to
its original value. -/
theorem nextSlide_prevSlide_inverse (s : State) (hN : 1 ≤ s.totalCards) (h : InRange s) :
    (prevSlide (nextSlide s).state).state.currentIndex = s.currentIndex ∧
    (nextSlide (prevSlide s).state).state.currentIndex = s.currentIndex := by
  have hP := totalDots_pos s hN
  unfold InRange at h
  constructor
  · rw [prevSlide_index, nextSlide_index]
    unfold maxIndex
    rw [nextSlide_totalDots]
    split <;> split <;> omega
  · rw [nextSlide_index, prevSlide_index]
    unfold maxIndex
    rw [prevSlide_totalDots]
    split <;> split <;> omega

theorem nextSlide_prevSlide_inverse_witness :
    (prevSlide (nextSlide (goToSlide 2 (constructed 7 wide)).state).state).state.currentIndex
      = (goToSlide 2 (constructed 7 wide)).state.currentIndex ∧
    (nextSlide (prevSlide (constructed 7 wide)).state).state.currentIndex
      = (constructed 7 wide).currentIndex :=
  ⟨(nextSlide_prevSlide_inverse (goToSlide 2 (constructed 7 wide)).state
      (by decide) (by decide)).1,
   (nextSlide_prevSlide_inverse (constructed 7 wide) (by decide) (by decide)).2⟩

/-! ## Swipe gestures (claim C15) -/

/-- C15: for a gesture that starts at `startX` and ends at `endX`, whole pixels or
not, the `touchend` listener does what `nextSlide` does when `startX - endX > 50`,
what `prevSlide` does when `startX - endX < -50`, and leaves the carousel as it
was when `|startX - endX| ≤ 50`, a displacement of exactly 50 included. -/
theorem touchend_threshold (t : Touch) (startX endX : ℚ) :
    (startX - endX > 50 →
      touchendOutcome endX (touchstart startX t) = nextSlide t.carousel ∧
      (touchend endX (touchstart startX t)).carousel = (nextSlide t.carousel).state) ∧
    (startX - endX < -50 →
      touchendOutcome endX (touchstart startX t) = prevSlide t.carousel ∧
      (touchend endX (touchstart startX t)).carousel = (prevSlide t.carousel).state) ∧
    (|startX - endX| ≤ 50 →
      touchendOutcome endX (touchstart startX t) = Outcome.ok t.carousel ∧
      (touchend endX (touchstart startX t)).carousel = t.carousel) ∧
    (startX - endX = 50 ∨ startX - endX = -50 →
      (touchend endX (touchstart startX t)).carousel = t.carousel) := by
  have far_pos : startX - endX > 50 →
      touchendOutcome endX (touchstart startX t) = nextSlide t.carousel := by
    intro h
    unfold touchendOutcome touchstart
    simp only [Bool.not_true, Bool.false_eq_true, if_false]
    rw [if_pos (lt_of_lt_of_le h (le_abs_self _)), if_pos (by linarith)]
  have far_neg : startX - endX < -50 →
      touchendOutcome endX (touchstart startX t) = prevSlide t.carousel := by
    intro h
    unfold touchendOutcome touchstart
    simp only [Bool.not_true, Bool.false_eq_true, if_false]
    rw [if_pos (lt_abs.2 (Or.inr (by linarith))), if_neg (by linarith)]
  have near : |startX - endX| ≤ 50 →
      touchendOutcome endX (touchstart startX t) = Outcome.ok t.carousel := by
    intro h
    unfold touchendOutcome touchstart
    simp only [Bool.not_true, Bool.false_eq_true, if_false]
    rw [if_neg (not_lt.2 h)]
  refine ⟨fun h => ⟨far_pos h, ?_⟩, fun h => ⟨far_neg h, ?_⟩, fun h => ⟨near h, ?_⟩, ?_⟩
  · show (touchendOutcome endX (touchstart startX t)).state = _
    rw [far_pos h]
  · show (touchendOutcome endX (touchstart startX t)).state = _
    rw [far_neg h]
  · show (touchendOutcome endX (touchstart startX t)).state = _
    rw [near h]
    rfl
  · intro h
    show (touchendOutcome endX (touchstart startX t)).state = _
    have hle : |startX - endX| ≤ 50 := by
      rcases h with h | h <;> rw [h] <;> norm_num
    rw [near hle]
    rfl

theorem touchend_threshold_witness :
    (touchend 100 (touchstart (301 / 2)
        { carousel := constructed 7 wide, startX := 0, isDragging := false })).carousel
      = (nextSlide (constructed 7 wide)).state ∧
    (touchend (301 / 2) (touchstart 100
        { carousel := constructed 7 wide, startX := 0, isDragging := false })).carousel
      = (prevSlide (constructed 7 wide)).state ∧
    (touchend (401 / 4) (touchstart 150
        { carousel := constructed 7 wide, startX := 0, isDragging := false })).carousel
      = constructed 7 wide ∧
    (touchend 100 (touchstart 150
        { carousel := constructed 7 wide, startX := 0, isDragging := false })).carousel
      = constructed 7 wide :=
  ⟨((touchend_threshold { carousel := constructed 7 wide, startX := 0, isDragging := false }
      (301 / 2) 100).1 (by norm_num)).2,
   ((touchend_threshold { carousel := constructed 7 wide, startX := 0, isDragging := false }
      100 (301 / 2)).2.1 (by norm_num)).2,
   ((touchend_threshold { carousel := constructed 7 wide, startX := 0, isDragging := false }
      150 (401 / 4)).2.2.1 (by rw [abs_le]; constructor <;> norm_num)).2,
   (touchend_threshold { carousel := constructed 7 wide, startX := 0, isDragging := false }
      150 100).2.2.2 (Or.inl (by norm_num))⟩

end Carousel

namespace ThemeToggle

/-- C19: whatever the `data-theme` attribute holds, one click sets it to `dark`
when it was exactly `light` and to `light` otherwise, and stores the same value
under `theme`; so after a click the theme is `light` or `dark`, and two clicks
starting from `light` or from `dark` restore the starting theme. -/
theorem click_toggles (s : ThemeState) :
    (s.dataTheme = some "light" → (click s).dataTheme = some "dark") ∧
    (s.dataTheme ≠ some "light" → (click s).dataTheme = some "light") ∧
    (click s).stored = (click s).dataTheme ∧
    ((click s).dataTheme = some "light" ∨ (click s).dataTheme = some "dark") ∧
    (s.dataTheme = some "light" ∨ s.dataTheme = some "dark" →
      (click (click s)).dataTheme = s.dataTheme) := by
  refine ⟨?_, ?_, rfl, ?_, ?_⟩
  · intro h
    simp [click, newTheme, h]
  · intro h
    simp [click, newTheme, h]
  · by_cases h : s.dataTheme = some "light"
    · right
      simp [click, newTheme, h]
    · left
      simp [click, newTheme, h]
  · rintro (h | h)
    · simp [click, newTheme, h]
    · simp [click, newTheme, h]

theorem click_toggles_witness :
    (click { dataTheme := some "light", stored := Option.none }).dataTheme = some "dark" ∧
    (click { dataTheme := some "solarized", stored := Option.none }).dataTheme = some "light" ∧
    (click (click { dataTheme := some "dark", stored := some "dark" })).dataTheme = some "dark" :=
  ⟨(click_toggles { dataTheme := some "light", stored := Option.none }).1 (by decide),
   (click_toggles { dataTheme := some "solarized", stored := Option.none }).2.1 (by decide),
   (click_toggles { dataTheme := some "dark", stored := some "dark" }).2.2.2.2
     (Or.inr (by decide))⟩

end ThemeToggle

namespace ContactForm

theorem mem_notSpaceAt (x : List CharClass) :
    x ∈ notSpaceAt.matches' ↔ ∃ k, x = [k] ∧ Plain k := by
  unfold notSpaceAt Plain
  simp only [RegularExpression.matches'_add, RegularExpression.matches'_char, Language.mem_add]
  constructor
  · rintro (h | h)
    · exact ⟨_, h, Or.inl rfl⟩
    · exact ⟨_, h, Or.inr rfl⟩
  · rintro ⟨k, rfl, hk | hk⟩
    · left; rw [hk]; rfl
    · right; rw [hk]; rfl

theorem mem_star_notSpaceAt (x : List CharClass) :
    x ∈ notSpaceAt.star.matches' ↔ ∀ k ∈ x, Plain k := by
  rw [RegularExpression.matches'_star, Language.mem_kstar]
  constructor
  · rintro ⟨L, rfl, hL⟩
    induction L with
    | nil => intro k hk; simp at hk
    | cons y ys ih =>
      intro k hk
      rw [List.flatten_cons, List.mem_append] at hk
      rcases hk with hk | hk
      · obtain ⟨j, rfl, hj⟩ := (mem_notSpaceAt y).1 (hL y (List.mem_cons_self _ _))
        rw [List.mem_singleton] at hk
        rw [hk]; exact hj
      · exact ih (fun z hz => hL z (List.mem_cons_of_mem _ hz)) k hk
  · intro h
    induction x with
    | nil => exact ⟨[], rfl, fun y hy => absurd hy (List.not_mem_nil _)⟩
    | cons k ks ih =>
      obtain ⟨L, hL, hmem⟩ := ih (fun j hj => h j (List.mem_cons_of_mem _ hj))
      refine ⟨[k] :: L, by rw [List.flatten_cons, ← hL]; rfl, ?_⟩
      intro y hy
      rcases List.mem_cons.1 hy with rfl | hy
      · exact (mem_notSpaceAt _).2 ⟨k, rfl, h k (List.mem_cons_self _ _)⟩
      · exact hmem y hy

theorem mem_oneOrMore (x : List CharClass) :
    x ∈ (oneOrMore notSpaceAt).matches' ↔ x ≠ [] ∧ ∀ k ∈ x, Plain k := by
  unfold oneOrMore
  rw [RegularExpression.matches'_mul, Language.mem_mul]
  constructor
  · rintro ⟨a, ha, b, hb, rfl⟩
    obtain ⟨k, rfl, hk⟩ := (mem_notSpaceAt a).1 ha
    refine ⟨by simp, ?_⟩
    intro j hj
    rcases List.mem_append.1 hj with hj | hj
    · rw [List.mem_singleton] at hj; rw [hj]; exact hk
    · exact (mem_star_notSpaceAt b).1 hb j hj
  · rintro ⟨hne, h⟩
    cases x with
    | nil => exact absurd rfl hne
    | cons k ks =>
      exact ⟨[k], (mem_notSpaceAt _).2 ⟨k, rfl, h k (List.mem_cons_self _ _)⟩, ks,
        (mem_star_notSpaceAt ks).2 (fun j hj => h j (List.mem_cons_of_mem _ hj)), rfl⟩

theorem mem_emailRegex (w : List CharClass) :
    w ∈ emailRegex.matches' ↔
      ∃ a b c, w = a ++ CharClass.atSign :: (b ++ CharClass.dot :: c) ∧
        (a ≠ [] ∧ ∀ k ∈ a, Plain k) ∧ (b ≠ [] ∧ ∀ k ∈ b, Plain k) ∧
        (c ≠ [] ∧ ∀ k ∈ c, Plain k) := by
  unfold emailRegex
  simp only [RegularExpression.matches'_mul, RegularExpression.matches'_char, Language.mem_mul]
  constructor
  · rintro ⟨p4, ⟨p3, ⟨p2, ⟨a, ha, q, hq, rfl⟩, b, hb, rfl⟩, r, hr, rfl⟩, c, hc, rfl⟩
    have hq1 : q = [CharClass.atSign] := hq
    have hr1 : r = [CharClass.dot] := hr
    subst hq1 hr1
    exact ⟨a, b, c, by simp, (mem_oneOrMore a).1 ha, (mem_oneOrMore b).1 hb,
      (mem_oneOrMore c).1 hc⟩
  · rintro ⟨a, b, c, rfl, ha, hb, hc⟩
    exact ⟨_, ⟨_, ⟨_, ⟨a, (mem_oneOrMore a).2 ha, [CharClass.atSign], rfl, rfl⟩, b,
      (mem_oneOrMore b).2 hb, rfl⟩, [CharClass.dot], rfl, rfl⟩, c, (mem_oneOrMore c).2 hc,
      by simp⟩

theorem classify_atSign (c : Char) : classify c = CharClass.atSign ↔ c = '@' := by
  unfold classify
  split_ifs <;> simp_all

theorem classify_dot (c : Char) : classify c = CharClass.dot ↔ c = '.' := by
  unfold classify
  split_ifs with h1 h2 h3
  · subst h1; simp
  · simp [h2]
  · simp [h2]
  · simp [h2]

theorem classify_plain (c : Char) :
    Plain (classify c) ↔ c ≠ '@' ∧ isWhiteSpace c = false := by
  unfold Plain classify
  split_ifs with h1 h2 h3
  · simp [h1]
  · subst h2; simp; decide
  · simp [h1, h3]
  · simp [h1, h3]

/-- C17: `isValidEmail s` is true exactly when `s` has no white space character,
exactly one at sign, a non-empty part before the at sign, and after it a part that
contains a full stop which is neither its first nor its last character. -/
theorem isValidEmail_iff_shape (s : String) :
    isValidEmail s = true ↔ EmailShape s.toList := by
  unfold isValidEmail
  rw [RegularExpression.rmatch_iff_matches', mem_emailRegex]
  unfold EmailShape
  constructor
  · rintro ⟨a, b, c, hw, ⟨ha, hpa⟩, ⟨hb, hpb⟩, ⟨hc, hpc⟩⟩
    obtain ⟨l, r1, hs, hl, hr1⟩ := List.map_eq_append_iff.1 hw
    obtain ⟨c1, d, hr1', hc1, hd⟩ := List.map_eq_cons_iff.1 hr1
    obtain ⟨x, r2, hd', hx, hr2⟩ := List.map_eq_append_iff.1 hd
    obtain ⟨c2, y, hr2', hc2, hy⟩ := List.map_eq_cons_iff.1 hr2
    have e1 : c1 = '@' := (classify_atSign c1).1 hc1
    have e2 : c2 = '.' := (classify_dot c2).1 hc2
    subst e1 e2 hr1' hr2' hd' hl hx hy
    have pl : ∀ ch ∈ l, ch ≠ '@' ∧ isWhiteSpace ch = false := fun ch hch =>
      (classify_plain ch).1 (hpa _ (List.mem_map_of_mem _ hch))
    have px : ∀ ch ∈ x, ch ≠ '@' ∧ isWhiteSpace ch = false := fun ch hch =>
      (classify_plain ch).1 (hpb _ (List.mem_map_of_mem _ hch))
    have py : ∀ ch ∈ y, ch ≠ '@' ∧ isWhiteSpace ch = false := fun ch hch =>
      (classify_plain ch).1 (hpc _ (List.mem_map_of_mem _ hch))
    have cl : l.count '@' = 0 := List.count_eq_zero.2 (fun h => (pl _ h).1 rfl)
    have cx : x.count '@' = 0 := List.count_eq_zero.2 (fun h => (px _ h).1 rfl)
    have cy : y.count '@' = 0 := List.count_eq_zero.2 (fun h => (py _ h).1 rfl)
    refine ⟨?_, ?_, l, x ++ '.' :: y, hs, ?_, x, y, rfl, ?_, ?_⟩
    · intro ch hch
      rw [hs] at hch
      simp only [List.mem_append, List.mem_cons] at hch
      rcases hch with h | rfl | h | rfl | h
      · exact (pl _ h).2
      · decide
      · exact (px _ h).2
      · decide
      · exact (py _ h).2
    · rw [hs]
      simp [List.count_append, List.count_cons, cl, cx, cy]
    · intro h; subst h; exact ha rfl
    · intro h; subst h; exact hb rfl
    · intro h; subst h; exact hc rfl
  · rintro ⟨hws, hcount, l, d, hs, hl, x, y, hd, hx, hy⟩
    subst hd
    rw [hs] at hcount hws
    simp only [List.count_append, List.count_cons, beq_self_eq_true, if_true] at hcount
    have cl : l.count '@' = 0 := by omega
    have cx : x.count '@' = 0 := by
      have : ('.' == '@') = false := by decide
      simp only [this] at hcount
      omega
    have cy : y.count '@' = 0 := by
      have : ('.' == '@') = false := by decide
      simp only [this] at hcount
      omega
    have pl : ∀ k ∈ l.map classify, Plain k := by
      intro k hk
      obtain ⟨ch, hch, rfl⟩ := List.mem_map.1 hk
      exact (classify_plain ch).2 ⟨fun h => List.count_eq_zero.1 cl (h ▸ hch),
        hws ch (by simp [hch])⟩
    have px : ∀ k ∈ x.map classify, Plain k := by
      intro k hk
      obtain ⟨ch, hch, rfl⟩ := List.mem_map.1 hk
      exact (classify_plain ch).2 ⟨fun h => List.count_eq_zero.1 cx (h ▸ hch),
        hws ch (by simp [hch])⟩
    have py : ∀ k ∈ y.map classify, Plain k := by
      intro k hk
      obtain ⟨ch, hch, rfl⟩ := List.mem_map.1 hk
      exact (classify_plain ch).2 ⟨fun h => List.count_eq_zero.1 cy (h ▸ hch),
        hws ch (by simp [hch])⟩
    refine ⟨l.map classify, x.map classify, y.map classify, ?_, ⟨?_, pl⟩, ⟨?_, px⟩, ⟨?_, py⟩⟩
    · rw [hs]
      simp only [List.map_append, List.map_cons]
      have e1 : classify '@' = CharClass.atSign := by decide
      have e2 : classify '.' = CharClass.dot := by decide
      rw [e1, e2]
    · simpa using hl
    · simpa using hx
    · simpa using hy


theorem truthy_iff (v : Option String) : truthy v = true ↔ ∃ s, v = some s ∧ s ≠ "" := by
  cases v with
  | none => simp [truthy]
  | some s => simp [truthy]

theorem endpoint_configured :
    (FORMSPREE_ENDPOINT = "" || includes FORMSPREE_ENDPOINT "YOUR_FORM_ID") = false := by
  decide

/-- C18: the form is posted only if name, email, message, project type and budget
are all non-empty and the e-mail address is valid (and it is posted then, when the
form has its submit button); if one of the five is empty the listener ends with
the `fields` error, whatever the address, and posts nothing; and company, phone
and newsletter have no influence on how the listener ends. -/
theorem onSubmit_guards (b : Bool) (f : FormFields) :
    (onSubmit b f = SubmitResult.posted →
      truthy f.name = true ∧ truthy f.message = true ∧ truthy f.projectType = true ∧
      truthy f.budget = true ∧ ∃ e, f.email = some e ∧ e ≠ "" ∧ isValidEmail e = true) ∧
    (truthy f.name = false ∨ truthy f.email = false ∨ truthy f.message = false ∨
        truthy f.projectType = false ∨ truthy f.budget = false →
      onSubmit b f = SubmitResult.notified "notification.error.fields" ∧
      onSubmit b f ≠ SubmitResult.posted) ∧
    (∀ company phone newsletter,
      onSubmit b { f with company := company, phone := phone, newsletter := newsletter }
        = onSubmit b f) ∧
    (truthy f.name = true → truthy f.message = true → truthy f.projectType = true →
      truthy f.budget = true → (∀ e, f.email = some e → e ≠ "" ∧ isValidEmail e = true) →
      f.email ≠ none → b = true → onSubmit b f = SubmitResult.posted) := by
  have hE := endpoint_configured
  refine ⟨?_, ?_, fun _ _ _ => rfl, ?_⟩
  · intro h
    unfold onSubmit at h
    split at h
    · exact absurd h (by simp)
    · rename_i h1
      split at h
      · exact absurd h (by simp)
      · rename_i h2
        simp only [Bool.or_eq_true, Bool.not_eq_true', not_or, Bool.not_eq_false] at h1
        obtain ⟨⟨⟨⟨hn, he⟩, hm⟩, hp⟩, hb⟩ := h1
        obtain ⟨e, hes, hne⟩ := (truthy_iff f.email).1 he
        refine ⟨hn, hm, hp, hb, e, hes, hne, ?_⟩
        rw [hes] at h2
        simpa using h2
  · intro h
    have : (!truthy f.name || !truthy f.email || !truthy f.message || !truthy f.projectType
        || !truthy f.budget) = true := by
      rcases h with h | h | h | h | h <;> simp [h]
    unfold onSubmit
    rw [if_pos this]
    exact ⟨rfl, by simp⟩
  · intro hn hm hp hb he hsome hbtn
    obtain ⟨e, hes⟩ := Option.ne_none_iff_exists'.1 hsome
    obtain ⟨hne, hv⟩ := he e hes
    have hte : truthy f.email = true := (truthy_iff f.email).2 ⟨e, hes, hne⟩
    unfold onSubmit
    rw [if_neg (by simp [hn, hm, hp, hb, hte])]
    rw [if_neg (by simp [hes, hv])]
    rw [if_neg (by rw [hE]; simp)]
    rw [if_neg (by simp [hbtn])]

theorem onSubmit_guards_witness :
    onSubmit true sampleForm = SubmitResult.posted ∧
    onSubmit true { sampleForm with budget := some "" }
      = SubmitResult.notified "notification.error.fields" ∧
    onSubmit true { sampleForm with email := some "not an address", name := none }
      = SubmitResult.notified "notification.error.fields" :=
  ⟨(onSubmit_guards true sampleForm).2.2.2 (by decide) (by decide) (by decide) (by decide)
      (by decide) (by decide) rfl,
   ((onSubmit_guards true { sampleForm with budget := some "" }).2.1
      (Or.inr (Or.inr (Or.inr (Or.inr (by decide)))))).1,
   ((onSubmit_guards true { sampleForm with email := some "not an address", name := none }).2.1
      (Or.inl (by decide))).1⟩

end ContactForm

namespace I18n

/-- An unknown language code that is not a name inherited from `Object.prototype`
is rendered with the English dictionary. -/
theorem dictFor_unknown (lang : String) (h1 : lang ≠ "en") (h2 : lang ≠ "nl")
    (h3 : lang ∉ objectPrototypeNames) : dictFor lang = dictFor "en" := by
  unfold dictFor
  rw [if_neg h1, if_neg h2, if_neg h3]
  rfl

/-- A key that a dictionary lacks, and that is not an inherited name, leaves the element alone. -/
theorem translateContent_absent (builtinProp : String → String → Bool)
    (entries : List (String × String)) (el : Element) (key : String)
    (hk : el.i18n = some key) (h1 : entries.lookup key = none)
    (h2 : key ∉ objectPrototypeNames) :
    translateContent builtinProp (.table entries) el = el := by
  unfold translateContent
  rw [hk]
  simp only [Dict.get, h1, if_neg h2]

/-- C20, evaluated where the code departs from it: the language code `constructor`
is neither `en` nor `nl`, yet `translations[lang]` finds the inherited
`Object.prototype.constructor`, which is truthy, so the English fallback is not
taken; as that built-in has no property `nav.home`, the link keeps `Start`, while
`applyTranslations` for `en` writes `Home`. (The key `footer.copyright`, absent
from the English dictionary, is left unchanged when switching to English.) -/
theorem applyTranslations_inherited_name (builtinProp : String → String → Bool)
    (h : builtinProp "constructor" "nav.home" = false) :
    dictFor "constructor" = Dict.builtin "constructor" ∧
    applyTranslations builtinProp "constructor" [homeLink] = [homeLink] ∧
    applyTranslations builtinProp "en" [homeLink]
      = [{ homeLink with innerHTML := Content.html "Home" }] ∧
    applyTranslations builtinProp "constructor" [homeLink]
      ≠ applyTranslations builtinProp "en" [homeLink] ∧
    applyTranslations builtinProp "en" [footerLine] = [footerLine] := by
  have e1 : dictFor "constructor" = Dict.builtin "constructor" := by decide
  have e2 : applyTranslations builtinProp "constructor" [homeLink] = [homeLink] := by
    simp [applyTranslations, e1, translateContent, translatePlaceholder, Dict.get, homeLink, h]
  have e3 : applyTranslations builtinProp "en" [homeLink]
      = [{ homeLink with innerHTML := Content.html "Home" }] := by
    rfl
  refine ⟨e1, e2, e3, ?_, by rfl⟩
  rw [e2, e3]
  decide

theorem applyTranslations_inherited_name_witness :
    applyTranslations (fun _ _ => false) "constructor" [homeLink]
      ≠ applyTranslations (fun _ _ => false) "en" [homeLink] :=
  (applyTranslations_inherited_name (fun _ _ => false) rfl).2.2.2.1

end I18n
